import Mathlib

/-!
Verification of the core of `twitterOLLAMA.py` (EveryOneIsGross/twitterCLI):
a shallow embedding of the dispatcher (`StructuredTwitterAPI.execute` and
`_handle_tweets`), the conversation context (`ConversationContext`) and the
NLP retry loop (`process_nlp_request`), with the external collaborators
(the `twitterCLI.TwitterAPI` client, the `ollama.chat` service and the
`json`/`pydantic` parsing of its reply) modelled as oracles.

Python values that flow through dicts are modelled by `PyVal`; Python dicts
with string keys by insertion-ordered association lists (`PyDict`).
Wall-clock timestamps (`TwitterResponse.timestamp`, the `timestamp` field of
conversation turns) and the `await asyncio.sleep(1)` backoff delay are not
modelled: no claim mentions them.
-/

/-- A Python value, as far as this program manipulates them. -/
inductive PyVal where
  | none : PyVal
  | bool : Bool → PyVal
  | int : Int → PyVal
  | str : String → PyVal
  | list : List PyVal → PyVal
  | dict : List (String × PyVal) → PyVal

/-- A Python dict with string keys, in insertion order. -/
abbrev PyDict := List (String × PyVal)

/-- Python `d.get(k)`: the value at the first occurrence of key `k`, if any. -/
def py_get : PyDict → String → Option PyVal
  | [], _ => Option.none
  | (k', v') :: rest, k => if k' == k then some v' else py_get rest k

/-- Python `k in d` for a dict `d`. -/
def py_contains (d : PyDict) (k : String) : Bool :=
  (py_get d k).isSome

/-- Python `d.get(k, dflt)`. -/
def py_get_default (d : PyDict) (k : String) (dflt : PyVal) : PyVal :=
  (py_get d k).getD dflt

/-- Python `d[k]`: `KeyError` (whose `str` is the quoted key) when absent. -/
def py_index (d : PyDict) (k : String) : Except String PyVal :=
  match py_get d k with
  | some v => Except.ok v
  | Option.none => Except.error ("'" ++ k ++ "'")

/-- Python `d[k] = v`: replace the value at `k` keeping insertion order, or
append a new binding. -/
def py_set : PyDict → String → PyVal → PyDict
  | [], k, v => [(k, v)]
  | (k', v') :: rest, k, v =>
    if k' == k then (k, v) :: rest else (k', v') :: py_set rest k v

/-- Python truthiness of a value (`bool(v)`). -/
def py_truthy : PyVal → Bool
  | .none => false
  | .bool b => b
  | .int n => n != 0
  | .str s => !s.isEmpty
  | .list xs => !xs.isEmpty
  | .dict xs => !xs.isEmpty

/-- Python truthiness of a `dict.get` result (`None` when the key is absent). -/
def py_truthy_opt : Option PyVal → Bool
  | some v => py_truthy v
  | Option.none => false

/-- The name Python prints for a value's type. -/
def py_type_name : PyVal → String
  | .none => "NoneType"
  | .bool _ => "bool"
  | .int _ => "int"
  | .str _ => "str"
  | .list _ => "list"
  | .dict _ => "dict"

/-- `str.lower()` on one string: per-character lowercasing (ASCII letters;
that is the fragment the claims exercise). -/
def str_lower (s : String) : String :=
  ⟨s.data.map Char.toLower⟩

/-- Python `v.lower()`: lowercases a string, raises `AttributeError` on any
other type. -/
def py_lower : PyVal → Except String String
  | .str s => Except.ok (str_lower s)
  | v => Except.error ("'" ++ py_type_name v ++ "' object has no attribute 'lower'")

/-- Structural equality of Python values (`==` between values of the same
type; the program only ever compares strings). -/
def pv_eq : PyVal → PyVal → Bool
  | .none, .none => true
  | .bool a, .bool b => a == b
  | .int a, .int b => a == b
  | .str a, .str b => a == b
  | .list [], .list [] => true
  | .list (a :: as), .list (b :: bs) => pv_eq a b && pv_eq (.list as) (.list bs)
  | .dict [], .dict [] => true
  | .dict ((ka, va) :: as), .dict ((kb, vb) :: bs) =>
      ka == kb && pv_eq va vb && pv_eq (.dict as) (.dict bs)
  | _, _ => false

/-- Python `k in v` for an arbitrary value `v` (`'id' in result['data']`):
key test on dicts, substring test on strings, membership on lists,
`TypeError` otherwise. -/
def py_in (k : String) : PyVal → Except String Bool
  | .dict d => Except.ok (py_contains d k)
  | .str s => Except.ok ((s.splitOn k).length != 1)
  | .list xs => Except.ok (xs.any (fun v => pv_eq v (.str k)))
  | v => Except.error ("argument of type '" ++ py_type_name v ++ "' is not iterable")

/-- Python `v[k]` for an arbitrary value `v` and string key `k`
(`user_result['data']['id']`): dict lookup, `TypeError` on anything else. -/
def py_index_val : PyVal → String → Except String PyVal
  | .dict d, k => py_index d k
  | .str _, _ => Except.error "string indices must be integers"
  | .list _, _ => Except.error "list indices must be integers or slices, not str"
  | v, _ => Except.error ("'" ++ py_type_name v ++ "' object is not subscriptable")

/-! ## Data models (`TwitterRequest`, `TwitterResponse`) -/

/-- `TwitterRequest` (pydantic model): an operation name and a params dict. -/
structure TwitterRequest where
  operation : String
  params : PyDict

/-- `TwitterResponse` (pydantic model). The `timestamp` field (wall-clock,
`datetime.now()`) is not modelled. `error` holds `result.get('error')`;
pydantic's own coercion of non-`str` error values is external-library
behaviour and is not modelled. -/
structure TwitterResponse where
  success : Bool
  data : Option PyDict := Option.none
  error : Option PyVal := Option.none

/-! ## The external `twitterCLI.TwitterAPI` client, as an oracle -/

/-- One call to the external `twitterCLI.TwitterAPI` client, with its
arguments: the dispatcher's test double records these. -/
inductive ExtCall where
  | get_user_info (username : PyVal)
  | get_user_tweets (user_id : PyVal) (limit : PyVal)
  | search_tweets (query : PyVal) (limit : PyVal)
  | create_tweet (text : PyVal) (media_path : PyVal) (reply_to_id : PyVal)
  | like_tweet (tweet_id : PyVal)
  | unlike_tweet (tweet_id : PyVal)
  | get_home_timeline (limit : PyVal)
  | delete_tweet (tweet_id : PyVal)

/-- The external client as an oracle: each call either returns a mapping or
raises (modelled as `Except.error` carrying `str(exception)`). -/
abbrev TwitterAPI := ExtCall → Except String PyDict

/-- The dispatcher's mutable state (`self.user_id_cache`) plus the trace of
external calls made so far (the call-count ledger of a test double). -/
structure ExecEffects where
  cache : PyDict
  calls : List ExtCall

/-- Perform one external call, recording it in the trace. -/
def call_api (api : TwitterAPI) (c : ExtCall) (st : ExecEffects) :
    Except String PyDict × ExecEffects :=
  (api c, { st with calls := st.calls ++ [c] })

/-! ## The dispatcher (`StructuredTwitterAPI`) -/

/-- The cache-miss arm of `_handle_tweets` (lines 110-121): fetch user info
inline, propagate an error-bearing result unchanged, else read
`user_result['data']['id']`, store it in the cache and call
`get_user_tweets`. `username` is already lowercased. -/
def fetch_user_then_tweets (api : TwitterAPI) (params : PyDict) (username : String)
    (st : ExecEffects) : Except String PyDict × ExecEffects :=
  match call_api api (.get_user_info (.str username)) st with
  | (Except.error e, st1) => (Except.error e, st1)
  | (Except.ok user_result, st1) =>
    if py_contains user_result "error" then
      (Except.ok user_result, st1)
    else
      match py_index user_result "data" with
      | Except.error e => (Except.error e, st1)
      | Except.ok dv =>
        match py_index_val dv "id" with
        | Except.error e => (Except.error e, st1)
        | Except.ok user_id =>
          call_api api
            (.get_user_tweets user_id (py_get_default params "limit" (.int 10)))
            { st1 with cache := py_set st1.cache username user_id }

/-- `StructuredTwitterAPI._handle_tweets` (lines 103-121): lowercase
`params['username']`, consult the cache (a falsy cached value counts as a
miss, `if not user_id:`), and call `get_user_tweets` with the resolved
identifier and `params.get('limit', 10)`. -/
def handle_tweets (api : TwitterAPI) (params : PyDict) (st : ExecEffects) :
    Except String PyDict × ExecEffects :=
  match py_index params "username" with
  | Except.error e => (Except.error e, st)
  | Except.ok uv =>
    match py_lower uv with
    | Except.error e => (Except.error e, st)
    | Except.ok username =>
      match py_get st.cache username with
      | some cached =>
        if py_truthy cached then
          call_api api
            (.get_user_tweets cached (py_get_default params "limit" (.int 10))) st
        else fetch_user_then_tweets api params username st
      | Option.none => fetch_user_then_tweets api params username st

/-- The keys of `operation_map` (lines 64-77). -/
def known_operations : List String :=
  ["user", "tweets", "search", "post", "like", "unlike", "timeline", "delete"]

/-- `operation_map[request.operation](request.params)` (line 86): the body of
each handler closure, with required parameters read via `py_index`
(Python's `p[k]`, raising `KeyError`) before the external call, and
optional ones via `py_get_default` (`p.get(k, dflt)`). The final arm is
unreachable from `execute`, which checks membership first. -/
def run_operation (api : TwitterAPI) (req : TwitterRequest) (st : ExecEffects) :
    Except String PyDict × ExecEffects :=
  if req.operation = "user" then
    match py_index req.params "username" with
    | Except.error e => (Except.error e, st)
    | Except.ok u => call_api api (.get_user_info u) st
  else if req.operation = "tweets" then
    handle_tweets api req.params st
  else if req.operation = "search" then
    match py_index req.params "query" with
    | Except.error e => (Except.error e, st)
    | Except.ok q =>
      call_api api (.search_tweets q (py_get_default req.params "limit" (.int 10))) st
  else if req.operation = "post" then
    match py_index req.params "text" with
    | Except.error e => (Except.error e, st)
    | Except.ok t =>
      call_api api
        (.create_tweet t (py_get_default req.params "media_path" .none)
          (py_get_default req.params "reply_to_id" .none)) st
  else if req.operation = "like" then
    match py_index req.params "tweet_id" with
    | Except.error e => (Except.error e, st)
    | Except.ok i => call_api api (.like_tweet i) st
  else if req.operation = "unlike" then
    match py_index req.params "tweet_id" with
    | Except.error e => (Except.error e, st)
    | Except.ok i => call_api api (.unlike_tweet i) st
  else if req.operation = "timeline" then
    call_api api (.get_home_timeline (py_get_default req.params "limit" (.int 20))) st
  else if req.operation = "delete" then
    match py_index req.params "tweet_id" with
    | Except.error e => (Except.error e, st)
    | Except.ok i => call_api api (.delete_tweet i) st
  else (Except.error ("Unsupported operation: " ++ req.operation), st)

/-- The user-id caching step of `execute` (lines 88-92): after a `user`
operation whose result has no `error` key and has a `data` key, when
`params.get('username')` is truthy and `'id' in result['data']`, store
`user_id_cache[username.lower()] = result['data']['id']`. Any exception
here (`TypeError` from `in` on a non-container, `AttributeError` from
`.lower()` on a non-string) escapes to `execute`'s `except` clause.
Python evaluates the assignment's right-hand side before the subscript
key, hence `result['data']['id']` before `username.lower()`. -/
def cache_user_id (req : TwitterRequest) (result : PyDict) (cache : PyDict) :
    Except String PyDict :=
  if req.operation == "user" && !py_contains result "error" && py_contains result "data" then
    let username := (py_get req.params "username").getD .none
    if py_truthy username then
      match py_in "id" ((py_get result "data").getD .none) with
      | Except.error e => Except.error e
      | Except.ok false => Except.ok cache
      | Except.ok true =>
        match py_index_val ((py_get result "data").getD .none) "id" with
        | Except.error e => Except.error e
        | Except.ok idv =>
          match py_lower username with
          | Except.error e => Except.error e
          | Except.ok lu => Except.ok (py_set cache lu idv)
    else Except.ok cache
  else Except.ok cache

/-- `StructuredTwitterAPI.execute` (lines 61-101). Total: every failure —
unknown operation, `KeyError` on a required parameter, an exception from
the external call or from the caching step — becomes a
`success := false` response. A result mapping with an `error` key is a
failure carrying that value; one without is a success carrying the
mapping. Returns the response together with the final cache and the trace
of external calls made. -/
def execute (api : TwitterAPI) (cache : PyDict) (req : TwitterRequest) :
    TwitterResponse × ExecEffects :=
  let st0 : ExecEffects := { cache := cache, calls := [] }
  if known_operations.contains req.operation then
    match run_operation api req st0 with
    | (Except.error e, st) =>
      ({ success := false, data := Option.none, error := some (.str e) }, st)
    | (Except.ok result, st) =>
      match cache_user_id req result st.cache with
      | Except.error e =>
        ({ success := false, data := Option.none, error := some (.str e) }, st)
      | Except.ok cache2 =>
        ({ success := !py_contains result "error",
           data := if py_contains result "error" then Option.none else some result,
           error := py_get result "error" }, { st with cache := cache2 })
  else
    ({ success := false, data := Option.none,
       error := some (.str ("Unsupported operation: " ++ req.operation)) }, st0)

/-! ## Conversation context (`ConversationContext`) -/

/-- `ConversationContext` (lines 33-52): an ordered message log plus the last
assistant api_response. Each message dict's `timestamp` entry
(`datetime.now().isoformat()`) is not modelled. `last_response` is a
`PyVal` (`None` or a dict), as in the source's `Optional[Dict[str, Any]]`. -/
structure ConversationContext where
  messages : List PyDict := []
  last_response : PyVal := .none

/-- `ConversationContext.add_user_message` (lines 38-43). -/
def add_user_message (ctx : ConversationContext) (message : String) :
    ConversationContext :=
  { ctx with
    messages := ctx.messages ++ [[("role", .str "user"), ("content", .str message)]] }

/-- `ConversationContext.add_assistant_message` (lines 45-52): append one
assistant turn carrying `api_response` (default `None`) and then
unconditionally overwrite `last_response` with it. -/
def add_assistant_message (ctx : ConversationContext) (message : String)
    (api_response : PyVal := .none) : ConversationContext :=
  { messages := ctx.messages ++
      [[("role", .str "assistant"), ("content", .str message),
        ("api_response", api_response)]],
    last_response := api_response }

/-! ## The NLP retry loop (`process_nlp_request`, lines 123-173)

The `ollama.chat` service and the parsing of its reply (`json.loads`
followed by `TwitterRequest(**request_data)`) are external collaborators,
modelled as oracles: `chat` maps the attempt index to what the service did
on that invocation, and `parse` stands for the `json`/pydantic parsing
chain, returning either the parsed request or `str` of the
`ValueError`/`ValidationError` it raised. -/

/-- What the `ollama.chat` call did on one invocation. -/
inductive ChatResult where
  | raises (msg : String)
  | noContent
  | content (text : String)

/-- How `process_nlp_request` terminates. `retNone` is Python's implicit
`None` when the `for attempt in range(max_retries)` loop body never runs
(only possible for `max_retries = 0`). -/
inductive NlpResult where
  | ok (req : TwitterRequest)
  | raised (msg : String)
  | retNone

/-- The body of one attempt (lines 155-168), up to the outer
`except Exception as e` handler: the error string is `str(e)` for whichever
exception the chain raised. An empty `response.message.content` is falsy,
hence `"Invalid response format from Ollama"`. -/
def attempt_once (parse : String → Except String TwitterRequest)
    (chat : Nat → ChatResult) (i : Nat) : Except String TwitterRequest :=
  match chat i with
  | .raises m => Except.error m
  | .noContent => Except.error "Invalid response format from Ollama"
  | .content t =>
    if t.isEmpty then Except.error "Invalid response format from Ollama" else parse t

/-- The `for attempt in range(max_retries)` loop (lines 153-173), entered at
index `attempt` with `remaining` iterations left (`attempt + remaining =
max_retries` at every call from `process_nlp_request`). Returns the outcome
together with the total number of service invocations (the attempt index is
the count of invocations already made). Exhausting `remaining` without
returning is Python's fall-through `return None` — reachable only when
`max_retries = 0`, since the final iteration always returns or raises. -/
def nlp_loop (parse : String → Except String TwitterRequest)
    (chat : Nat → ChatResult) (max_retries : Nat) :
    Nat → Nat → NlpResult × Nat
  | attempt, 0 => (.retNone, attempt)
  | attempt, remaining + 1 =>
    match attempt_once parse chat attempt with
    | Except.ok r => (.ok r, attempt + 1)
    | Except.error e =>
      if attempt == max_retries - 1 then
        (.raised ("Failed to process NLP request after " ++ toString max_retries ++
          " attempts: " ++ e), attempt + 1)
      else nlp_loop parse chat max_retries (attempt + 1) remaining

/-- `process_nlp_request` (lines 123-173), with the service and parser as
oracles; the prompt construction (lines 127-151) only feeds the oracles and
is not further modelled. Returns the outcome and the number of `chat`
invocations. -/
def process_nlp_request (parse : String → Except String TwitterRequest)
    (chat : Nat → ChatResult) (max_retries : Nat := 3) : NlpResult × Nat :=
  nlp_loop parse chat max_retries 0 max_retries

/-! ## Test doubles and helper lemmas -/

/-- A stub client that answers every call with an empty success mapping. -/
def stub_echo : TwitterAPI := fun _ => Except.ok []

/-- A stub client whose user lookup reports a user with identifier 42 and
whose tweets lookup succeeds. -/
def stub_user42 : TwitterAPI := fun c =>
  match c with
  | .get_user_info _ => Except.ok [("data", .dict [("id", .str "42")])]
  | .get_user_tweets _ _ => Except.ok [("tweets", .list [])]
  | _ => Except.ok []

/-- A stub client whose user lookup returns an error-bearing mapping. -/
def stub_user_err : TwitterAPI := fun c =>
  match c with
  | .get_user_info _ => Except.ok [("error", .str "user not found")]
  | _ => Except.ok []

theorem py_get_py_set_self (c : PyDict) (k : String) (v : PyVal) :
    py_get (py_set c k v) k = some v := by
  induction c with
  | nil => simp [py_set, py_get]
  | cons hd tl ih =>
    obtain ⟨k', v'⟩ := hd
    by_cases h : k' == k
    · simp [py_set, py_get, h]
    · simp only [py_set, py_get, h, Bool.false_eq_true, if_false, if_neg]
      exact ih

theorem py_get_eq_none_of_not_contains (d : PyDict) (k : String)
    (h : py_contains d k = false) : py_get d k = Option.none := by
  cases hg : py_get d k with
  | none => rfl
  | some v => rw [py_contains, hg] at h; simp at h

/-! ## Claim theorems -/

/-- C9: for every context state, message and `api_response` argument,
`add_assistant_message` appends exactly one assistant turn (leaving every
prior turn in place) and unconditionally overwrites `last_response` with
that argument; calling it with the argument absent (Python default `None`)
clears `last_response` even when a prior call had set it. -/
theorem C9_add_assistant_message_spec (ctx : ConversationContext)
    (message : String) (r : PyVal) :
    (add_assistant_message ctx message r).messages =
      ctx.messages ++
        [[("role", .str "assistant"), ("content", .str message),
          ("api_response", r)]] ∧
    (add_assistant_message ctx message r).last_response = r ∧
    (add_assistant_message ctx message).last_response = PyVal.none :=
  ⟨rfl, rfl, rfl⟩

/-- C6: for every operation name outside the eight known kinds, `execute`
returns `success = false` with an error string containing the operation
name, makes no external call, and leaves the identifier cache unchanged. -/
theorem C6_unknown_operation (api : TwitterAPI) (cache : PyDict)
    (req : TwitterRequest)
    (h : known_operations.contains req.operation = false) :
    execute api cache req =
      ({ success := false, data := Option.none,
         error := some (.str ("Unsupported operation: " ++ req.operation)) },
       { cache := cache, calls := [] }) ∧
    ∃ pre post,
      "Unsupported operation: " ++ req.operation = pre ++ req.operation ++ post := by
  have hc : ¬ (known_operations.contains req.operation = true) := by
    rw [h]; exact Bool.false_ne_true
  refine ⟨?_, "Unsupported operation: ", "", ?_⟩
  · unfold execute
    dsimp only
    rw [if_neg hc]
  · simp

/-- C6 witness: `execute` at the unknown operation name `frobnicate`. -/
theorem C6_unknown_operation_witness :
    known_operations.contains "frobnicate" = false ∧
    (execute stub_echo [("k", .str "v")] ⟨"frobnicate", []⟩ =
      ({ success := false, data := Option.none,
         error := some (.str "Unsupported operation: frobnicate") },
       { cache := [("k", .str "v")], calls := [] }) ∧
     ∃ pre post, "Unsupported operation: " ++ "frobnicate" = pre ++ "frobnicate" ++ post) :=
  ⟨rfl, C6_unknown_operation stub_echo [("k", .str "v")] ⟨"frobnicate", []⟩ rfl⟩

/-- Whether a Python-optional response field is SET, i.e. holds a value
other than Python `None`. Both `Option.none` (the field was never
assigned a value, pydantic default) and `some PyVal.none` (the field was
assigned Python `None`, e.g. `error=result.get('error')` when the mapping
bound `'error'` to `None`) denote an unset field. -/
def py_field_set : Option PyVal → Bool
  | some PyVal.none => false
  | some _ => true
  | Option.none => false

/-- Whether a Python-optional response field was assigned Python `None`
explicitly (`some PyVal.none`). -/
def py_field_is_none : Option PyVal → Bool
  | some PyVal.none => true
  | _ => false

/-- The UniformResponse shape invariant of §3 of the spec, as a decidable
predicate on responses, with set-ness read Python-style (`py_field_set`):
a successful response carries data and no error, a failed one carries an
error and no data. -/
def response_invariant (r : TwitterResponse) : Bool :=
  if r.success then r.data.isSome && !py_field_set r.error
  else py_field_set r.error && r.data.isNone

/-- A stub client that answers every call with the mapping
`{'error': None}` — an `'error'` key bound to Python `None`, within the
collaborator contract ("a mapping that ... contains an `error` key"). -/
def stub_error_none : TwitterAPI := fun _ => Except.ok [("error", PyVal.none)]

/-- C7 counterexample: a `like` operation (which legitimately returns
content) whose external call answers `{'error': None}` yields
`success = false` with `data = None` AND `error = None` — the error field
holds Python `None` (`result.get('error')`), so neither `data` nor `error`
is set and the §3 invariant is violated on the real code. -/
theorem C7_error_none_counterexample :
    stub_error_none (.like_tweet (.str "1")) = Except.ok [("error", PyVal.none)] ∧
    (execute stub_error_none [] ⟨"like", [("tweet_id", .str "1")]⟩).1.success = false ∧
    (execute stub_error_none [] ⟨"like", [("tweet_id", .str "1")]⟩).1.data = Option.none ∧
    (execute stub_error_none [] ⟨"like", [("tweet_id", .str "1")]⟩).1.error =
      some PyVal.none ∧
    py_field_set
      (execute stub_error_none [] ⟨"like", [("tweet_id", .str "1")]⟩).1.error = false ∧
    response_invariant
      (execute stub_error_none [] ⟨"like", [("tweet_id", .str "1")]⟩).1 = false :=
  ⟨rfl, rfl, rfl, rfl, rfl, rfl⟩

theorem py_field_set_or_is_none (v : PyVal) :
    (py_field_set (some v) || py_field_is_none (some v)) = true := by
  cases v <;> rfl

/-- The response shape `execute` actually guarantees (the amended §3
invariant): on success, data is set and error is unset; on failure, data
is unset and the error field holds the reported value — a set string on
every internally generated failure, but possibly Python `None` when the
external mapping bound its `'error'` key to `None`. -/
def response_shape_amended (r : TwitterResponse) : Bool :=
  if r.success then r.data.isSome && !py_field_set r.error
  else r.data.isNone && (py_field_set r.error || py_field_is_none r.error)

/-- C7 (amended): every response `execute` produces satisfies — when
`success` is true, `data` is set and `error` unset; when `success` is
false, `data` is unset and `error` is set, EXCEPT that `error` too is
unset (Python `None`) when the underlying mapping bound its `'error'` key
to `None` — and this both-unset failure can occur for any operation, not
only ones returning no content. -/
theorem C7_response_shape_amended (api : TwitterAPI) (cache : PyDict)
    (req : TwitterRequest) :
    response_shape_amended (execute api cache req).1 = true := by
  by_cases hk : known_operations.contains req.operation = true
  · unfold execute
    dsimp only
    rw [if_pos hk]
    rcases hrun : run_operation api req { cache := cache, calls := [] } with ⟨r, st⟩
    cases r with
    | error e => rfl
    | ok result =>
      dsimp only
      cases hcache : cache_user_id req result st.cache with
      | error e => rfl
      | ok c2 =>
        dsimp only
        by_cases herr : py_contains result "error" = true
        · have hv := Option.isSome_iff_exists.mp herr
          obtain ⟨v, hv⟩ := hv
          unfold response_shape_amended
          simp [herr, hv, py_field_set_or_is_none]
        · simp only [Bool.not_eq_true] at herr
          unfold response_shape_amended
          simp [herr, py_get_eq_none_of_not_contains _ _ herr, py_field_set]
  · unfold execute
    dsimp only
    rw [if_neg hk]
    rfl

/-- The required-parameter table of §6 of the spec: the one parameter each
operation kind reads with a bare subscript (`p[...]`) in `operation_map` /
`_handle_tweets`; `timeline` requires none. -/
def required_key (operation : String) : Option String :=
  if operation = "user" then some "username"
  else if operation = "tweets" then some "username"
  else if operation = "search" then some "query"
  else if operation = "post" then some "text"
  else if operation = "like" then some "tweet_id"
  else if operation = "unlike" then some "tweet_id"
  else if operation = "delete" then some "tweet_id"
  else Option.none

/-- C8: for every known operation kind whose params lack that kind's
required key (the §6 table), `execute` returns a failure response whose
error is the `KeyError` message for that key — a validation failure as a
value, not a raised exception (`execute` is total). -/
theorem C8_missing_required_param (api : TwitterAPI) (cache : PyDict)
    (req : TwitterRequest) (k : String)
    (hk : required_key req.operation = some k)
    (hmiss : py_get req.params k = Option.none) :
    (execute api cache req).1.success = false ∧
    (execute api cache req).1.error = some (.str ("'" ++ k ++ "'")) := by
  obtain ⟨op, params⟩ := req
  dsimp only at hk hmiss ⊢
  unfold required_key at hk
  split_ifs at hk with h1 h2 h3 h4 h5 h6 h7
  · subst h1; injection hk with hkk; subst hkk
    simp [execute, run_operation, known_operations, py_index, hmiss]
  · subst h2; injection hk with hkk; subst hkk
    simp [execute, run_operation, known_operations, handle_tweets, py_index, hmiss]
  · subst h3; injection hk with hkk; subst hkk
    simp [execute, run_operation, known_operations, py_index, hmiss]
  · subst h4; injection hk with hkk; subst hkk
    simp [execute, run_operation, known_operations, py_index, hmiss]
  · subst h5; injection hk with hkk; subst hkk
    simp [execute, run_operation, known_operations, py_index, hmiss]
  · subst h6; injection hk with hkk; subst hkk
    simp [execute, run_operation, known_operations, py_index, hmiss]
  · subst h7; injection hk with hkk; subst hkk
    simp [execute, run_operation, known_operations, py_index, hmiss]

/-- C8 witness: a `like` operation with an empty params dict fails with the
`KeyError` for `tweet_id`. -/
theorem C8_missing_required_param_witness :
    required_key "like" = some "tweet_id" ∧
    py_get [] "tweet_id" = Option.none ∧
    ((execute stub_echo [] ⟨"like", []⟩).1.success = false ∧
     (execute stub_echo [] ⟨"like", []⟩).1.error =
       some (.str ("'" ++ "tweet_id" ++ "'"))) :=
  ⟨rfl, rfl, C8_missing_required_param stub_echo [] ⟨"like", []⟩ "tweet_id" rfl rfl⟩

/-! ## Reduction lemmas for the dispatcher paths -/

theorem execute_eq_of_known (api : TwitterAPI) (cache : PyDict)
    (req : TwitterRequest) (h : known_operations.contains req.operation = true) :
    execute api cache req =
      (match run_operation api req { cache := cache, calls := [] } with
       | (Except.error e, st) =>
         ({ success := false, data := Option.none, error := some (.str e) }, st)
       | (Except.ok result, st) =>
         match cache_user_id req result st.cache with
         | Except.error e =>
           ({ success := false, data := Option.none, error := some (.str e) }, st)
         | Except.ok cache2 =>
           ({ success := !py_contains result "error",
              data := if py_contains result "error" then Option.none else some result,
              error := py_get result "error" }, { st with cache := cache2 })) := by
  unfold execute
  dsimp only
  rw [if_pos h]

theorem run_operation_user (api : TwitterAPI) (params : PyDict)
    (st : ExecEffects) (u : PyVal) (hu : py_get params "username" = some u) :
    run_operation api ⟨"user", params⟩ st = call_api api (.get_user_info u) st := by
  unfold run_operation
  dsimp only
  rw [if_pos rfl]
  simp only [py_index, hu]

theorem run_operation_tweets (api : TwitterAPI) (params : PyDict)
    (st : ExecEffects) :
    run_operation api ⟨"tweets", params⟩ st = handle_tweets api params st := by
  unfold run_operation
  dsimp only
  rw [if_neg (by decide), if_pos rfl]

theorem handle_tweets_hit (api : TwitterAPI) (params : PyDict) (st : ExecEffects)
    (u : String) (v : PyVal)
    (hu : py_get params "username" = some (.str u))
    (hv : py_get st.cache (str_lower u) = some v)
    (ht : py_truthy v = true) :
    handle_tweets api params st =
      call_api api (.get_user_tweets v (py_get_default params "limit" (.int 10))) st := by
  unfold handle_tweets
  simp only [py_index, hu, py_lower, hv, ht, if_true]

theorem handle_tweets_miss (api : TwitterAPI) (params : PyDict) (st : ExecEffects)
    (u : String)
    (hu : py_get params "username" = some (.str u))
    (hmiss : py_truthy_opt (py_get st.cache (str_lower u)) = false) :
    handle_tweets api params st = fetch_user_then_tweets api params (str_lower u) st := by
  unfold handle_tweets
  simp only [py_index, hu, py_lower]
  cases hc : py_get st.cache (str_lower u) with
  | none => rfl
  | some v =>
    rw [hc] at hmiss
    simp only [py_truthy_opt] at hmiss
    simp only [hmiss, Bool.false_eq_true, if_false]

theorem fetch_user_then_tweets_err (api : TwitterAPI) (params : PyDict)
    (u : String) (st : ExecEffects) (m : PyDict)
    (hcall : api (.get_user_info (.str u)) = Except.ok m)
    (herr : py_contains m "error" = true) :
    fetch_user_then_tweets api params u st =
      (Except.ok m, { st with calls := st.calls ++ [.get_user_info (.str u)] }) := by
  unfold fetch_user_then_tweets
  simp only [call_api, hcall, herr, if_true]

theorem fetch_user_then_tweets_found (api : TwitterAPI) (params : PyDict)
    (u : String) (st : ExecEffects) (m : PyDict) (d : PyDict) (idv : PyVal)
    (hcall : api (.get_user_info (.str u)) = Except.ok m)
    (herr : py_contains m "error" = false)
    (hdata : py_get m "data" = some (.dict d))
    (hid : py_get d "id" = some idv) :
    fetch_user_then_tweets api params u st =
      (api (.get_user_tweets idv (py_get_default params "limit" (.int 10))),
       { cache := py_set st.cache u idv,
         calls := st.calls ++ [.get_user_info (.str u),
           .get_user_tweets idv (py_get_default params "limit" (.int 10))] }) := by
  unfold fetch_user_then_tweets
  simp only [call_api, hcall, herr, Bool.false_eq_true, if_false,
    py_index, hdata, py_index_val, hid, List.append_assoc, List.cons_append,
    List.nil_append]

theorem cache_user_id_not_user (req : TwitterRequest) (result : PyDict)
    (cache : PyDict) (h : (req.operation == "user") = false) :
    cache_user_id req result cache = Except.ok cache := by
  unfold cache_user_id
  simp only [h, Bool.false_and, Bool.false_eq_true, if_false]

/-- C5: for every `tweets` operation whose username misses the cache (absent
or falsy entry) and whose inline user lookup returns an error-bearing
mapping, `execute` returns that error normalized as a failure response,
makes no `get_user_tweets` call (the trace holds only the user lookup), and
leaves the identifier cache unchanged. -/
theorem C5_tweets_inline_lookup_error (api : TwitterAPI) (cache : PyDict)
    (req : TwitterRequest) (u : String) (m : PyDict) (errv : PyVal)
    (hop : req.operation = "tweets")
    (hu : py_get req.params "username" = some (.str u))
    (hmiss : py_truthy_opt (py_get cache (str_lower u)) = false)
    (hcall : api (.get_user_info (.str (str_lower u))) = Except.ok m)
    (herr : py_get m "error" = some errv) :
    execute api cache req =
      ({ success := false, data := Option.none, error := some errv },
       { cache := cache, calls := [.get_user_info (.str (str_lower u))] }) := by
  obtain ⟨op, params⟩ := req
  dsimp only at hop hu
  subst hop
  have hct : py_contains m "error" = true := by rw [py_contains, herr]; rfl
  rw [execute_eq_of_known _ _ _ (by rfl), run_operation_tweets,
    handle_tweets_miss _ _ _ _ hu (by exact hmiss),
    fetch_user_then_tweets_err _ _ _ _ _ hcall hct]
  dsimp only
  rw [cache_user_id_not_user _ _ _ (by rfl)]
  simp [hct, herr]

/-- C5 witness: a cache-miss `tweets` request against a stub whose user
lookup reports an error. -/
theorem C5_tweets_inline_lookup_error_witness :
    py_truthy_opt (py_get [] (str_lower "Bob")) = false ∧
    stub_user_err (.get_user_info (.str (str_lower "Bob"))) =
      Except.ok [("error", .str "user not found")] ∧
    execute stub_user_err [] ⟨"tweets", [("username", .str "Bob")]⟩ =
      ({ success := false, data := Option.none,
         error := some (.str "user not found") },
       { cache := [], calls := [.get_user_info (.str (str_lower "Bob"))] }) :=
  ⟨rfl, rfl,
    C5_tweets_inline_lookup_error stub_user_err [] ⟨"tweets", [("username", .str "Bob")]⟩
      "Bob" [("error", .str "user not found")] (.str "user not found")
      rfl rfl rfl rfl rfl⟩

/-- C3 counterexample: the lowercased username `bob` IS a key of the cache
(bound to the empty string), yet `execute` does invoke the external
user-lookup call — the claim's hypothesis "is already a key" is not enough;
the code tests truthiness of the cached value, not key presence. -/
theorem C3_cached_key_counterexample :
    py_contains [("bob", .str "")] (str_lower "Bob") = true ∧
    (execute stub_user42 [("bob", .str "")]
        ⟨"tweets", [("username", .str "Bob")]⟩).2.calls =
      [.get_user_info (.str "bob"), .get_user_tweets (.str "42") (.int 10)] :=
  ⟨rfl, rfl⟩

/-- C3 (amended): for every `tweets` operation whose lowercased username is
mapped in the cache to a truthy (e.g. non-empty) identifier, `execute`
never invokes the external user lookup and invokes `get_user_tweets` with
the cached identifier and `params.limit` (default 10); the cache is
unchanged. -/
theorem C3_tweets_cache_hit (api : TwitterAPI) (cache : PyDict)
    (req : TwitterRequest) (u : String) (idv : PyVal)
    (hop : req.operation = "tweets")
    (hu : py_get req.params "username" = some (.str u))
    (hcached : py_get cache (str_lower u) = some idv)
    (ht : py_truthy idv = true) :
    (execute api cache req).2.calls =
      [.get_user_tweets idv (py_get_default req.params "limit" (.int 10))] ∧
    (∀ x, ExtCall.get_user_info x ∉ (execute api cache req).2.calls) ∧
    (execute api cache req).2.cache = cache := by
  obtain ⟨op, params⟩ := req
  dsimp only at hop hu ⊢
  subst hop
  rw [execute_eq_of_known _ _ _ (by rfl), run_operation_tweets,
    handle_tweets_hit _ _ _ _ _ hu (by exact hcached) ht]
  cases hres : api (.get_user_tweets idv (py_get_default params "limit" (.int 10))) with
  | error e => simp [call_api, hres]
  | ok m =>
    simp only [call_api]
    rw [hres]
    dsimp only
    rw [cache_user_id_not_user ⟨"tweets", params⟩ m _ rfl]
    dsimp only
    simp

/-- C3 witness: a `tweets` request whose username is cache-resident with a
truthy identifier calls only `get_user_tweets`. -/
theorem C3_tweets_cache_hit_witness :
    py_get [("bob", .str "99")] (str_lower "Bob") = some (.str "99") ∧
    py_truthy (.str "99") = true ∧
    ((execute stub_user42 [("bob", .str "99")]
        ⟨"tweets", [("username", .str "Bob")]⟩).2.calls =
      [.get_user_tweets (.str "99")
        (py_get_default [("username", .str "Bob")] "limit" (.int 10))] ∧
     (∀ x, ExtCall.get_user_info x ∉
       (execute stub_user42 [("bob", .str "99")]
         ⟨"tweets", [("username", .str "Bob")]⟩).2.calls) ∧
     (execute stub_user42 [("bob", .str "99")]
       ⟨"tweets", [("username", .str "Bob")]⟩).2.cache = [("bob", .str "99")]) :=
  ⟨rfl, rfl,
    C3_tweets_cache_hit stub_user42 [("bob", .str "99")]
      ⟨"tweets", [("username", .str "Bob")]⟩ "Bob" (.str "99") rfl rfl rfl rfl⟩

/-- C10: for every `tweets` operation whose lowercased username is present
in the cache but bound to the empty (falsy) string, the dispatcher treats
it as a miss: it invokes the external user lookup, overwrites the cache
entry with the freshly returned identifier on success, and passes that
fresh identifier — not the cached empty value — to `get_user_tweets`. -/
theorem C10_falsy_cache_entry_is_miss (api : TwitterAPI) (cache : PyDict)
    (req : TwitterRequest) (u : String) (m : PyDict) (d : PyDict) (idv : PyVal)
    (hop : req.operation = "tweets")
    (hu : py_get req.params "username" = some (.str u))
    (hcached : py_get cache (str_lower u) = some (.str ""))
    (hcall : api (.get_user_info (.str (str_lower u))) = Except.ok m)
    (herr : py_contains m "error" = false)
    (hdata : py_get m "data" = some (.dict d))
    (hid : py_get d "id" = some idv) :
    (execute api cache req).2.calls =
      [.get_user_info (.str (str_lower u)),
       .get_user_tweets idv (py_get_default req.params "limit" (.int 10))] ∧
    (execute api cache req).2.cache = py_set cache (str_lower u) idv := by
  obtain ⟨op, params⟩ := req
  dsimp only at hop hu ⊢
  subst hop
  rw [execute_eq_of_known _ _ _ (by rfl), run_operation_tweets,
    handle_tweets_miss _ _ _ _ hu
      (by exact (congrArg py_truthy_opt hcached).trans rfl),
    fetch_user_then_tweets_found _ _ _ _ _ _ _ hcall herr hdata hid]
  cases hres : api (.get_user_tweets idv (py_get_default params "limit" (.int 10))) with
  | error e => dsimp only; simp
  | ok m2 =>
    dsimp only
    rw [cache_user_id_not_user ⟨"tweets", params⟩ m2 _ rfl]
    dsimp only
    simp

/-- C10 witness: a cache holding `bob -> \"\"` is refreshed to the stub's
identifier 42 and the tweets call receives 42. -/
theorem C10_falsy_cache_entry_is_miss_witness :
    py_get [("bob", .str "")] (str_lower "Bob") = some (.str "") ∧
    ((execute stub_user42 [("bob", .str "")]
        ⟨"tweets", [("username", .str "Bob")]⟩).2.calls =
      [.get_user_info (.str (str_lower "Bob")),
       .get_user_tweets (.str "42")
         (py_get_default [("username", .str "Bob")] "limit" (.int 10))] ∧
     (execute stub_user42 [("bob", .str "")]
        ⟨"tweets", [("username", .str "Bob")]⟩).2.cache =
       py_set [("bob", .str "")] (str_lower "Bob") (.str "42")) :=
  ⟨rfl,
    C10_falsy_cache_entry_is_miss stub_user42 [("bob", .str "")]
      ⟨"tweets", [("username", .str "Bob")]⟩ "Bob"
      [("data", .dict [("id", .str "42")])] [("id", .str "42")] (.str "42")
      rfl rfl rfl rfl rfl rfl rfl⟩

/-- C4 counterexample: a `user` operation with the empty-string username
succeeds and its result carries an identifier, yet nothing is cached — the
`if username and ...` guard (line 91) skips caching for a falsy username,
so the claim as stated fails at this input. -/
theorem C4_empty_username_counterexample :
    (execute stub_user42 [] ⟨"user", [("username", .str "")]⟩).1.success = true ∧
    (execute stub_user42 [] ⟨"user", [("username", .str "")]⟩).1.data =
      some [("data", .dict [("id", .str "42")])] ∧
    (execute stub_user42 [] ⟨"user", [("username", .str "")]⟩).2.cache = [] ∧
    py_get (execute stub_user42 [] ⟨"user", [("username", .str "")]⟩).2.cache
      (str_lower "") = Option.none :=
  ⟨rfl, rfl, rfl, rfl⟩

/-- C4 (amended): for every `user` operation whose username parameter is a
non-empty (truthy) string and that succeeds with a result whose data
carries an identifier, the cache afterward maps the lowercased username to
that identifier, and any username agreeing with it modulo case resolves to
the same cache slot. -/
theorem C4_user_caches_lowercased_id (api : TwitterAPI) (cache : PyDict)
    (req : TwitterRequest) (u : String) (m : PyDict) (d : PyDict) (idv : PyVal)
    (hop : req.operation = "user")
    (hu : py_get req.params "username" = some (.str u))
    (hne : u.isEmpty = false)
    (hcall : api (.get_user_info (.str u)) = Except.ok m)
    (herr : py_contains m "error" = false)
    (hdata : py_get m "data" = some (.dict d))
    (hid : py_get d "id" = some idv) :
    (execute api cache req).1.success = true ∧
    (execute api cache req).2.cache = py_set cache (str_lower u) idv ∧
    ∀ v : String, str_lower v = str_lower u →
      py_get (execute api cache req).2.cache (str_lower v) = some idv := by
  obtain ⟨op, params⟩ := req
  dsimp only at hop hu ⊢
  subst hop
  have hcd : py_contains m "data" = true := by rw [py_contains, hdata]; rfl
  have hcid : py_contains d "id" = true := by rw [py_contains, hid]; rfl
  have hcache : cache_user_id ⟨"user", params⟩ m cache =
      Except.ok (py_set cache (str_lower u) idv) := by
    unfold cache_user_id
    dsimp only
    simp only [hu, hdata, hid, herr, hcd, hcid, hne, py_in, py_index_val,
      py_index, py_lower, py_truthy, Option.getD_some, beq_self_eq_true,
      Bool.not_false, Bool.and_true, Bool.true_and, Bool.and_self, if_true]
  rw [execute_eq_of_known _ _ _ (by rfl), run_operation_user _ _ _ _ hu]
  simp only [call_api]
  rw [hcall]
  dsimp only
  rw [hcache]
  dsimp only
  refine ⟨by rw [herr]; rfl, rfl, ?_⟩
  intro v hv
  rw [hv]
  exact py_get_py_set_self cache (str_lower u) idv

/-- C4 witness: a successful `user` lookup for `Bob` caches `bob -> 42`,
and the differently-cased `BOB` resolves to the same slot. -/
theorem C4_user_caches_lowercased_id_witness :
    stub_user42 (.get_user_info (.str "Bob")) =
      Except.ok [("data", .dict [("id", .str "42")])] ∧
    ((execute stub_user42 [] ⟨"user", [("username", .str "Bob")]⟩).1.success = true ∧
     (execute stub_user42 [] ⟨"user", [("username", .str "Bob")]⟩).2.cache =
       py_set [] (str_lower "Bob") (.str "42") ∧
     py_get (execute stub_user42 [] ⟨"user", [("username", .str "Bob")]⟩).2.cache
       (str_lower "BOB") = some (.str "42")) :=
  ⟨rfl, by
    have h := C4_user_caches_lowercased_id stub_user42 []
      ⟨"user", [("username", .str "Bob")]⟩ "Bob"
      [("data", .dict [("id", .str "42")])] [("id", .str "42")] (.str "42")
      rfl rfl rfl rfl rfl rfl rfl
    exact ⟨h.1, h.2.1, h.2.2 "BOB" rfl⟩⟩

theorem cache_user_id_of_error (req : TwitterRequest) (result : PyDict)
    (cache : PyDict) (h : py_contains result "error" = true) :
    cache_user_id req result cache = Except.ok cache := by
  unfold cache_user_id
  simp [h]

/-- C1 counterexample: a `user` operation whose underlying call returns a
mapping WITHOUT an `error` key, yet `execute` answers `success = false` —
the post-call caching step (line 92) raises `AttributeError` because the
truthy username parameter is not a string, and the exception handler turns
the no-error mapping into a failure. The claim's success branch is
therefore false as stated. -/
theorem C1_user_caching_step_counterexample :
    stub_user42 (.get_user_info (.int 1)) =
      Except.ok [("data", .dict [("id", .str "42")])] ∧
    py_contains [("data", PyVal.dict [("id", .str "42")])] "error" = false ∧
    (execute stub_user42 [] ⟨"user", [("username", .int 1)]⟩).1 =
      { success := false, data := Option.none,
        error := some (.str "'int' object has no attribute 'lower'") } :=
  ⟨rfl, rfl, rfl⟩

/-- C1 (amended): for every known operation, `execute` never raises (it is
a total function into responses) and normalizes the underlying call's
outcome: a raised exception becomes `success = false` with its message; a
mapping with an `error` key becomes `success = false`, `data = None`,
`error =` that value; a mapping without an `error` key becomes
`success = true` with the mapping as data and no error — PROVIDED the
user-id caching step between the call and the normalization does not
itself raise; when it does (possible only for a `user` operation with a
truthy non-string username or a `data` value that is not a container),
that exception too becomes `success = false` with `str(exception)`. -/
theorem C1_execute_normalization (api : TwitterAPI) (cache : PyDict)
    (req : TwitterRequest)
    (hop : known_operations.contains req.operation = true) :
    (∀ e st, run_operation api req { cache := cache, calls := [] } = (Except.error e, st) →
      execute api cache req =
        ({ success := false, data := Option.none, error := some (.str e) }, st)) ∧
    (∀ m st, run_operation api req { cache := cache, calls := [] } = (Except.ok m, st) →
      py_contains m "error" = true →
      execute api cache req =
        ({ success := false, data := Option.none, error := py_get m "error" }, st)) ∧
    (∀ m st e, run_operation api req { cache := cache, calls := [] } = (Except.ok m, st) →
      py_contains m "error" = false →
      cache_user_id req m st.cache = Except.error e →
      execute api cache req =
        ({ success := false, data := Option.none, error := some (.str e) }, st)) ∧
    (∀ m st c2, run_operation api req { cache := cache, calls := [] } = (Except.ok m, st) →
      py_contains m "error" = false →
      cache_user_id req m st.cache = Except.ok c2 →
      execute api cache req =
        ({ success := true, data := some m, error := Option.none },
         { st with cache := c2 })) := by
  refine ⟨?_, ?_, ?_, ?_⟩
  · intro e st h
    rw [execute_eq_of_known _ _ _ hop, h]
  · intro m st h hc
    rw [execute_eq_of_known _ _ _ hop, h]
    dsimp only
    rw [cache_user_id_of_error _ _ _ hc]
    dsimp only
    rw [hc]
    simp
  · intro m st e h hc hcache
    rw [execute_eq_of_known _ _ _ hop, h]
    dsimp only
    rw [hcache]
  · intro m st c2 h hc hcache
    rw [execute_eq_of_known _ _ _ hop, h]
    dsimp only
    rw [hcache]
    dsimp only
    rw [hc]
    simp [py_get_eq_none_of_not_contains _ _ hc]

/-- C1 witness: a `search` operation against a stub returning an empty
success mapping is normalized to a success response. -/
theorem C1_execute_normalization_witness :
    known_operations.contains "search" = true ∧
    run_operation stub_echo ⟨"search", [("query", .str "q")]⟩
        { cache := [], calls := [] } =
      (Except.ok [], { cache := [], calls := [.search_tweets (.str "q") (.int 10)] }) ∧
    execute stub_echo [] ⟨"search", [("query", .str "q")]⟩ =
      ({ success := true, data := some [], error := Option.none },
       { cache := [], calls := [.search_tweets (.str "q") (.int 10)] }) :=
  ⟨rfl, rfl,
    (C1_execute_normalization stub_echo [] ⟨"search", [("query", .str "q")]⟩ rfl).2.2.2
      [] { cache := [], calls := [.search_tweets (.str "q") (.int 10)] } [] rfl rfl rfl⟩

/-! ## The retry loop lemmas -/

theorem nlp_loop_reaches_success (parse : String → Except String TwitterRequest)
    (chat : Nat → ChatResult) (M : Nat) :
    ∀ remaining attempt j r, attempt + remaining = M → attempt ≤ j → j < M →
      (∀ i, attempt ≤ i → i < j → ∃ e, attempt_once parse chat i = Except.error e) →
      attempt_once parse chat j = Except.ok r →
      nlp_loop parse chat M attempt remaining = (.ok r, j + 1) := by
  intro remaining
  induction remaining with
  | zero => intro attempt j r hsum hle hlt _ _; omega
  | succ n ih =>
    intro attempt j r hsum hle hlt hfail hok
    rcases Nat.eq_or_lt_of_le hle with heq | hgt
    · subst heq
      unfold nlp_loop
      rw [hok]
    · obtain ⟨e, he⟩ := hfail attempt le_rfl hgt
      unfold nlp_loop
      rw [he]
      dsimp only
      have hne : (attempt == M - 1) = false := by
        rw [beq_eq_false_iff_ne]
        omega
      simp only [hne, Bool.false_eq_true, if_false]
      exact ih (attempt + 1) j r (by omega) (by omega) hlt
        (fun i h1 h2 => hfail i (by omega) h2) hok

theorem nlp_loop_exhausts_failure (parse : String → Except String TwitterRequest)
    (chat : Nat → ChatResult) (M : Nat) :
    ∀ remaining attempt e, attempt + remaining = M → attempt < M →
      (∀ i, attempt ≤ i → i < M → ∃ e2, attempt_once parse chat i = Except.error e2) →
      attempt_once parse chat (M - 1) = Except.error e →
      nlp_loop parse chat M attempt remaining =
        (.raised ("Failed to process NLP request after " ++ toString M ++
          " attempts: " ++ e), M) := by
  intro remaining
  induction remaining with
  | zero => intro attempt e hsum hlt _ _; omega
  | succ n ih =>
    intro attempt e hsum hlt hfail hlast
    by_cases heq : attempt = M - 1
    · subst heq
      unfold nlp_loop
      rw [hlast]
      dsimp only
      simp only [beq_self_eq_true, if_true]
      have hM : M - 1 + 1 = M := by omega
      rw [hM]
    · have hlt' : attempt < M - 1 := by omega
      obtain ⟨e2, he2⟩ := hfail attempt le_rfl (by omega)
      unfold nlp_loop
      rw [he2]
      dsimp only
      have hne : (attempt == M - 1) = false := by
        rw [beq_eq_false_iff_ne]
        exact heq
      simp only [hne, Bool.false_eq_true, if_false]
      exact ih (attempt + 1) e (by omega) (by omega)
        (fun i h1 h2 => hfail i (by omega) h2) hlast

/-- C2 counterexample: with `maxRetries = 0` and a service whose every
attempt is (vacuously) invalid, `process_nlp_request` invokes the service
exactly `maxRetries` = 0 times but does NOT raise a translation failure —
the `for` loop body never runs and Python falls through to an implicit
`return None`. The claim's final-failure branch is false at this input. -/
theorem C2_zero_retries_counterexample :
    process_nlp_request (fun _ => Except.error "parse failure")
      (fun _ => ChatResult.raises "boom") 0 = (.retNone, 0) :=
  rfl

/-- C2 (amended): for `maxRetries ≥ 1` and every service/parser behaviour —
if the first `k - 1` attempts are invalid and attempt `k ≤ maxRetries` is
valid, `translate` returns the parsed request having invoked the service
exactly `k` times; if every attempt is invalid, it invokes the service
exactly `maxRetries` times and raises a translation failure carrying the
attempt count and the last underlying error. -/
theorem C2_translate_retry (parse : String → Except String TwitterRequest)
    (chat : Nat → ChatResult) (max_retries : Nat) (hpos : 1 ≤ max_retries) :
    (∀ k r, 1 ≤ k → k ≤ max_retries →
      (∀ i, i < k - 1 → ∃ e, attempt_once parse chat i = Except.error e) →
      attempt_once parse chat (k - 1) = Except.ok r →
      process_nlp_request parse chat max_retries = (.ok r, k)) ∧
    (∀ e, (∀ i, i < max_retries → ∃ e2, attempt_once parse chat i = Except.error e2) →
      attempt_once parse chat (max_retries - 1) = Except.error e →
      process_nlp_request parse chat max_retries =
        (.raised ("Failed to process NLP request after " ++ toString max_retries ++
          " attempts: " ++ e), max_retries)) := by
  constructor
  · intro k r hk1 hkM hfail hok
    unfold process_nlp_request
    have h := nlp_loop_reaches_success parse chat max_retries max_retries 0 (k - 1) r
      (by omega) (by omega) (by omega) (fun i _ h2 => hfail i h2) hok
    have hk : k - 1 + 1 = k := by omega
    rw [hk] at h
    exact h
  · intro e hfail hlast
    unfold process_nlp_request
    exact nlp_loop_exhausts_failure parse chat max_retries max_retries 0 e
      (by omega) (by omega) (fun i _ h2 => hfail i h2) hlast

/-- A chat service double that fails twice, then answers with parseable
content. -/
def stub_chat_flaky : Nat → ChatResult := fun i =>
  if i < 2 then .raises "service unavailable" else .content "good"

/-- A parser double accepting exactly the flaky stub's good content. -/
def stub_parse_good : String → Except String TwitterRequest := fun t =>
  if t = "good" then Except.ok ⟨"user", [("username", .str "bob")]⟩
  else Except.error "Failed to parse JSON response"

/-- C2 witness: two invalid attempts then a valid one make `translate`
succeed on the third of three invocations. -/
theorem C2_translate_retry_witness :
    1 ≤ 3 ∧
    attempt_once stub_parse_good stub_chat_flaky 2 =
      Except.ok ⟨"user", [("username", .str "bob")]⟩ ∧
    process_nlp_request stub_parse_good stub_chat_flaky 3 =
      (.ok ⟨"user", [("username", .str "bob")]⟩, 3) :=
  ⟨by decide, rfl,
    (C2_translate_retry stub_parse_good stub_chat_flaky 3 (by decide)).1 3
      ⟨"user", [("username", .str "bob")]⟩ (by decide) (by decide)
      (by intro i hi; interval_cases i <;> exact ⟨"service unavailable", rfl⟩) rfl⟩
